import Mathlib

/-
Shallow embedding of the AI Interior Design Assistant core.

Sources embedded here:
- src/api/generate.ts: the serverless handler with its three operations
  (generateDesignIdeas, generateRedesignedImage, generateMorePalettes),
  split into the prompt builders and the response mapping it inlines.
- src/services/geminiService.ts: the client-side wrappers over the endpoint.
- App.tsx (embedded in the components file): the client orchestrator
  (handleGenerateClick, handleColorChange, handleSuggestMorePalettes).

JavaScript string truthiness (undefined and "" are falsy) is modelled
explicitly via Option String and the helpers strTruthy / truthyOr.
-/

/-! ## Data model (src/types via their use in the source) -/

structure ColorPalette where
  color : String
  accent : String
deriving DecidableEq, Repr

structure FurnitureSuggestion where
  name : String
  description : String
  placement : String
  estimatedPrice : Int
  modelUrl : Option String
deriving DecidableEq, Repr

structure EstimatedCost where
  min : Int
  max : Int
  currency : String
deriving DecidableEq, Repr

structure DesignPlan where
  analysis : String
  designRationale : String
  wallColor : ColorPalette
  lighting : String
  flooring : String
  furnitureSuggestions : List FurnitureSuggestion
  estimatedCost : EstimatedCost
  alternativePalettes : List ColorPalette
deriving DecidableEq, Repr

/-- Room dimensions as held in the client state: width and length are the raw
input strings (the empty string means absent), unit is the raw unit string. -/
structure RoomDimensions where
  width : String
  length : String
  unit : String
deriving DecidableEq, Repr

/-! ## JavaScript truthiness helpers -/

/-- Truthiness of an optional string value: undefined and "" are falsy. -/
def strTruthy : Option String → Bool
  | some s => s ≠ ""
  | none => false

/-- The JavaScript expression `v || dflt` over an optional string `v`. -/
def truthyOr (v : Option String) (dflt : String) : String :=
  match v with
  | some s => if s = "" then dflt else s
  | none => dflt

/-! ## Backend response shape (the generative-model client's result) -/

structure InlineData where
  mimeType : Option String
  data : Option String
deriving DecidableEq, Repr

structure ContentPart where
  text : Option String
  inlineData : Option InlineData
deriving DecidableEq, Repr

structure Content where
  parts : Option (List ContentPart)
deriving DecidableEq, Repr

structure SafetyRating where
  category : String
  blocked : Bool
deriving DecidableEq, Repr

structure Candidate where
  content : Option Content
  finishReason : Option String
  safetyRatings : Option (List SafetyRating)
deriving DecidableEq, Repr

structure GenResponse where
  candidates : Option (List Candidate)
deriving DecidableEq, Repr

/-- `part.inlineData && part.inlineData.data`: the inline image bytes of a
content part, when present and truthy (generate.ts line 179). -/
def ContentPart.imageData (p : ContentPart) : Option String :=
  match p.inlineData with
  | some d =>
    match d.data with
    | some s => if s = "" then none else some s
    | none => none
  | none => none

/-- `response.candidates?.[0]` (generate.ts line 174). -/
def GenResponse.firstCandidate (r : GenResponse) : Option Candidate :=
  r.candidates.bind List.head?

/-- `candidate?.content?.parts` for a candidate already in hand. -/
def Candidate.partsList (c : Candidate) : Option (List ContentPart) :=
  c.content.bind Content.parts

/-- The parts scanned by the image-extraction loop; an absent candidate or an
absent parts array scans as the empty list. -/
def GenResponse.partsOrEmpty (r : GenResponse) : List ContentPart :=
  ((r.firstCandidate.bind Candidate.partsList)).getD []

/-- The loop of generate.ts lines 177-183: return the first part whose
inlineData.data is truthy. -/
def GenResponse.scanImage (r : GenResponse) : Option String :=
  match r.firstCandidate with
  | some c =>
    match c.partsList with
    | some ps => ps.findSome? ContentPart.imageData
    | none => none
  | none => none

/-- `candidate?.content?.parts?.map(p => p.text).filter(Boolean).join(' ')
|| '[No text response]'` (generate.ts line 190). -/
def textResponseOf (c : Option Candidate) : String :=
  truthyOr
    ((c.bind Candidate.partsList).map fun ps =>
      String.intercalate " " ((ps.filterMap ContentPart.text).filter fun s => s ≠ ""))
    "[No text response]"

/-- `safetyRatings?.filter(r => r.blocked).map(r => r.category).join(', ')
|| 'unknown'` (generate.ts line 194). -/
def blockedCategoriesText (safetyRatings : Option (List SafetyRating)) : String :=
  truthyOr
    (safetyRatings.map fun rs =>
      String.intercalate ", " ((rs.filter fun x => x.blocked).map SafetyRating.category))
    "unknown"

/-- The error-path message construction of generate.ts lines 188-204. -/
def noImageErrorMessage (r : GenResponse) : String :=
  let candidate := r.firstCandidate
  let finishReason := candidate.bind Candidate.finishReason
  let safetyRatings := candidate.bind Candidate.safetyRatings
  let textResponse := textResponseOf candidate
  if finishReason = some "SAFETY" then
    "Image generation was blocked by safety filters for the following reasons: " ++
      blockedCategoriesText safetyRatings ++ "."
  else if textResponse ≠ "[No text response]" then
    "The AI returned a text message instead of an image: \"" ++ textResponse ++ "\""
  else if strTruthy finishReason then
    "The AI did not return a redesigned image." ++
      " The process stopped unexpectedly. Reason: " ++ finishReason.getD "" ++ "."
  else if candidate.isNone then
    "The AI returned no valid candidates in the response."
  else
    "The AI did not return a redesigned image."

/-- Outcome of the generateRedesignedImage operation: a 200 response carrying
the image bytes, or the thrown error's message. -/
inductive ImageResult where
  | ok (imageBytes : String)
  | error (message : String)
deriving DecidableEq, Repr

/-- Response mapping of the generateRedesignedImage case (generate.ts lines
174-204): return the first inline image, else throw the derived message. -/
def generateRedesignedImageResponse (r : GenResponse) : ImageResult :=
  match r.scanImage with
  | some data => .ok data
  | none => .error (noImageErrorMessage r)

/-! ## Prompt builders (inlined in the handler; named per the spec) -/

/-- `dimensions.unit === 'ft' ? 'feet' : 'meters'` (generate.ts line 109). -/
def unitNameOf (d : RoomDimensions) : String :=
  if d.unit = "ft" then "feet" else "meters"

/-- The dimension sentence interpolated into the plan prompt when both width
and length are truthy (generate.ts line 110). -/
def dimensionClause (d : RoomDimensions) : String :=
  " The user has specified the room is approximately " ++ d.width ++ " " ++ unitNameOf d ++
    " wide by " ++ d.length ++ " " ++ unitNameOf d ++ " long." ++
    " Please ensure your furniture suggestions and layout advice are appropriately scaled for a room of this size and explicitly mention this in your analysis."

/-- `dimensionText` of generate.ts lines 107-111: empty unless dimensions and
both fields are truthy. -/
def dimensionText (dims : Option RoomDimensions) : String :=
  match dims with
  | some d => if d.width ≠ "" ∧ d.length ≠ "" then dimensionClause d else ""
  | none => ""

/-- The plan prompt text before the dimension slot (generate.ts line 113). -/
def planPromptHead (roomType style : String) : String :=
  "You are a world-class AI interior designer with a keen eye for detail and aesthetics. Analyze the provided room image, which is a " ++ roomType ++
    ", and generate a complete design makeover plan in a friendly and inspiring tone. The user wants a \"" ++ style ++
    "\" style. Your recommendations must be appropriate for a " ++ roomType ++
    ". Your goal is to create a truly inspiring and practical makeover plan.\n                "

/-- The plan prompt text after the dimension slot (generate.ts lines 115-124). -/
def planPromptTail (style : String) : String :=
  "\n                Your tasks are:\n                1. Briefly analyze the current room's strengths and weaknesses.\n                2. Suggest a full makeover based on the selected style, keeping the provided dimensions in mind if available.\n                3. Output specific ideas for a primary wall color palette, flooring, and lighting.\n                4. Recommend 3-5 key furniture or decor items with detailed descriptions and placement suggestions. Ensure items are scaled correctly for the room. For each recommended item, you must also provide a `modelUrl`, which should be a publicly accessible URL to a 3D model of the item, preferably in GLTF or OBJ format. If a real model cannot be found, provide a realistic placeholder URL (e.g., 'https://models.example.com/modern_chair.gltf').\n                5. Provide a realistic, estimated total budget range (min and max) for the complete makeover. Also, include an estimated price for each recommended furniture item. All monetary values should be in USD.\n                6. Also provide exactly 3 alternative color palettes (primary and accent) that would offer a different mood while still fitting the requested style.\n                7. Provide a 'Design Rationale' explaining why your suggestions create a cohesive and high-quality '" ++ style ++
    "' design, touching on principles like balance, harmony, or focal points.\n\n                Provide the output in JSON format according to the provided schema. Ensure the descriptions are vivid and helpful."

/-- The text part of the generateDesignIdeas request (generate.ts lines 107-124). -/
def buildPlanPrompt (roomType style : String) (dims : Option RoomDimensions) : String :=
  planPromptHead roomType style ++ dimensionText dims ++ planPromptTail style

/-- `designPlan.furnitureSuggestions.map(f => f.name).join(', ')` (line 140). -/
def furnitureListOf (plan : DesignPlan) : String :=
  String.intercalate ", " (plan.furnitureSuggestions.map FurnitureSuggestion.name)

/-- `newColors?.color || designPlan.wallColor.color` (generate.ts line 141). -/
def resolvedPrimaryColor (plan : DesignPlan) (newColors : Option ColorPalette) : String :=
  truthyOr (newColors.map ColorPalette.color) plan.wallColor.color

/-- `newColors?.accent || designPlan.wallColor.accent` (generate.ts line 142). -/
def resolvedAccentColor (plan : DesignPlan) (newColors : Option ColorPalette) : String :=
  truthyOr (newColors.map ColorPalette.accent) plan.wallColor.accent

/-- ASCII lowercasing, modelling `roomType.toLowerCase()`. -/
def strToLower (s : String) : String :=
  ⟨s.data.map Char.toLower⟩

/-- `roomType.toLowerCase() === 'exterior'` (generate.ts line 143). -/
def isExteriorRoomType (roomType : String) : Bool :=
  strToLower roomType = "exterior"

/-- The exterior-branch image prompt (generate.ts lines 147-153). -/
def exteriorImagePrompt (plan : DesignPlan) (style : String) (newColors : Option ColorPalette) : String :=
  "Task: Redesign this building exterior in a photorealistic \"" ++ style ++
    "\" style.\nInstructions:\n1. Change the main color to \"" ++ resolvedPrimaryColor plan newColors ++
    "\" with \"" ++ resolvedAccentColor plan newColors ++
    "\" accents.\n2. Update landscaping and add outdoor items: " ++ furnitureListOf plan ++
    ".\n3. The lighting should be \"" ++ plan.lighting ++
    "\".\n4. IMPORTANT: Do not alter the building's core structure (walls, windows, roof).\n" ++
    "Output: Return ONLY the final, " ++ "edited" ++ " image without any surrounding text or explanation."

/-- The interior-branch image prompt (generate.ts lines 155-163). -/
def interiorImagePrompt (plan : DesignPlan) (style roomType : String) (newColors : Option ColorPalette) : String :=
  "Task: Redesign the interior of this " ++ roomType ++
    " photorealistically in the \"" ++ style ++
    "\" style.\nInstructions:\n1. Remove ALL existing furniture, decor, and items from the room.\n2. Change the wall color to \"" ++ resolvedPrimaryColor plan newColors ++
    "\".\n3. Change the floor to \"" ++ plan.flooring ++
    "\".\n4. Add the following new furniture, arranged in a natural and functional layout: " ++ furnitureListOf plan ++
    ".\n5. Adjust the lighting to be like \"" ++ plan.lighting ++
    "\".\n6. IMPORTANT: Do not alter the room's core structure (windows, doors, architectural features).\n" ++
    "Output: Return ONLY the final, " ++ "redesigned" ++ " image without any surrounding text or explanation."

/-- The text part of the generateRedesignedImage request (generate.ts lines 143-164). -/
def buildImagePrompt (plan : DesignPlan) (style roomType : String) (newColors : Option ColorPalette) : String :=
  if isExteriorRoomType roomType then exteriorImagePrompt plan style newColors
  else interiorImagePrompt plan style roomType newColors

/-- One line of the already-seen palette list: `- color & accent` (line 209). -/
def renderPaletteLine (p : ColorPalette) : String :=
  "- " ++ p.color ++ " & " ++ p.accent

/-- `[designPlan.wallColor, ...designPlan.alternativePalettes].map(...).join('\n')`
(generate.ts line 209). -/
def existingPalettesText (plan : DesignPlan) : String :=
  String.intercalate "\n" ((plan.wallColor :: plan.alternativePalettes).map renderPaletteLine)

/-- The generateMorePalettes prompt (generate.ts line 210). -/
def buildMorePalettesPrompt (plan : DesignPlan) (style : String) : String :=
  "You are an AI color consultant for an interior design app. Based on the following design analysis for a \"" ++ style ++
    "\" themed room, please generate exactly 3 new and distinct color palettes. **Design Analysis:** " ++ plan.analysis ++
    " **Important:** The user has already seen the following palettes, so please provide completely different options that suggest different moods (e.g., one calming, one energetic, one sophisticated): " ++ existingPalettesText plan ++
    " Return the output as a JSON array of objects, where each object has a 'color' and 'accent' property, according to the provided schema."

/-! ## Client orchestrator (App.tsx, embedded in the components file) -/

/-- Outcome of one awaited service call as the orchestrator sees it. -/
inductive CallResult (α : Type) where
  | ok (value : α)
  | failed (message : String)
deriving DecidableEq, Repr

/-- The orchestrator state the handlers read and write (App.tsx useState). -/
structure AppState where
  designPlan : Option DesignPlan
  generatedImage : Option String
  error : Option String
  isLoading : Bool
  isRegenerating : Bool
  isFetchingPalettes : Bool
  feedbackSubmitted : Bool
  uploadedImage : Option String
  selectedStyle : String
  selectedRoomType : String
deriving DecidableEq, Repr

def missingInputMessage : String :=
  "Please upload an image, select a room type, and a design style."

def failedPlanMessage : String :=
  "Sorry, I couldn't generate a design plan. This can happen if the AI is under heavy load or if the image is unsuitable for analysis. Please try again in a few moments, or with a different photo."

def degradedImageMessage : String :=
  "I've created the design plan, but couldn't visualize the room. You can still see the ideas below!"

def recolorFailureMessage : String :=
  "Sorry, I couldn't visualize the new colors. The AI might be busy. Please try selecting them again in a moment."

def morePalettesFailureMessage : String :=
  "Sorry, couldn't fetch more color ideas right now. The AI might be busy. Please try again in a bit."

/-- `handleGenerateClick` (App.tsx lines 621-653): reset, await the plan call,
publish the plan, await the image call; the catch block keeps a published
plan and chooses the error message by whether the plan call had succeeded. -/
def handleGenerateClick (s : AppState) (planCall : CallResult DesignPlan)
    (imageCall : CallResult String) : AppState :=
  if strTruthy s.uploadedImage = false ∨ s.selectedStyle = "" ∨ s.selectedRoomType = "" then
    { s with error := some missingInputMessage }
  else
    let s1 := { s with isLoading := true, error := none, designPlan := none,
                       generatedImage := none, feedbackSubmitted := false }
    let s2 :=
      match planCall with
      | .failed _ => { s1 with error := some failedPlanMessage }
      | .ok plan =>
        let s1a := { s1 with designPlan := some plan }
        match imageCall with
        | .failed _ => { s1a with error := some degradedImageMessage }
        | .ok bytes => { s1a with generatedImage := some ("data:image/jpeg;base64," ++ bytes) }
    { s2 with isLoading := false }

/-- The state set by `handleColorChange` before the image call resolves
(App.tsx lines 659-664): clear image and error, publish the plan with the
newly chosen wallColor. -/
def recolorOptimistic (s : AppState) (plan : DesignPlan) (newColors : ColorPalette) : AppState :=
  { s with isRegenerating := true, generatedImage := none, error := none,
           designPlan := some { plan with wallColor := newColors } }

/-- `handleColorChange` (App.tsx lines 656-675): guard, optimistic wallColor
update, one image call with newColors set; the catch block only sets the
error message and never touches the plan. -/
def handleColorChange (s : AppState) (newColors : ColorPalette)
    (imageCall : CallResult String) : AppState :=
  match s.designPlan with
  | none => s
  | some plan =>
    if strTruthy s.uploadedImage = false then s
    else
      let s1 := recolorOptimistic s plan newColors
      let s2 :=
        match imageCall with
        | .ok bytes => { s1 with generatedImage := some ("data:image/jpeg;base64," ++ bytes) }
        | .failed _ => { s1 with error := some recolorFailureMessage }
      { s2 with isRegenerating := false }

/-- The functional state update inside `handleSuggestMorePalettes` (App.tsx
lines 684-692): stringify-compare each returned palette against the existing
alternativePalettes and append the non-duplicates in order. -/
def mergeMorePalettes (prevPlan : DesignPlan) (newPalettes : List ColorPalette) : DesignPlan :=
  let existingPalettes := prevPlan.alternativePalettes
  let uniqueNewPalettes := newPalettes.filter fun p => !decide (p ∈ existingPalettes)
  { prevPlan with alternativePalettes := prevPlan.alternativePalettes ++ uniqueNewPalettes }

/-- `handleSuggestMorePalettes` (App.tsx lines 678-699). -/
def handleSuggestMorePalettes (s : AppState) (call : CallResult (List ColorPalette)) : AppState :=
  match s.designPlan with
  | none => s
  | some plan =>
    let s1 := { s with isFetchingPalettes := true, error := none }
    let s2 :=
      match call with
      | .ok newPalettes => { s1 with designPlan := some (mergeMorePalettes plan newPalettes) }
      | .failed _ => { s1 with error := some morePalettesFailureMessage }
    { s2 with isFetchingPalettes := false }

/-! ## Client-side service wrappers (src/services/geminiService.ts) -/

/-- The JSON body of the generateRedesignedImage endpoint response as the
client reads it: the imageBytes field on success, the error field otherwise. -/
structure ApiImageBody where
  imageBytes : Option String
  error : Option String
deriving DecidableEq, Repr

/-- The transport-level view of one fetch to /api/generate. -/
structure HttpResponse where
  status : Nat
  body : ApiImageBody
deriving DecidableEq, Repr

/-- `response.ok`: status in the 200-299 range. -/
def httpOk (status : Nat) : Bool :=
  200 ≤ status && status ≤ 299

/-- `callApi` (geminiService.ts lines 9-30): a non-ok response throws the
backend's error text when truthy, else a generic status message. -/
def callApiImage (r : HttpResponse) : CallResult ApiImageBody :=
  if httpOk r.status then .ok r.body
  else .failed (truthyOr r.body.error ("API request failed with status " ++ toString r.status))

/-- `generateRedesignedImage` client wrapper (geminiService.ts lines 37-44):
a falsy imageBytes field on a successful response is rejected. -/
def clientGenerateRedesignedImage (r : HttpResponse) : CallResult String :=
  match callApiImage r with
  | .failed e => .failed e
  | .ok result =>
    if strTruthy result.imageBytes = false then
      .failed "API response did not include image data."
    else
      .ok (result.imageBytes.getD "")

/-! ## Spec-side definitions used to settle refinement and correction claims -/

/-- Modelled from the claim wording for C4: resolution of the effective
palette as `newColors ?? plan.wallColor`, taken as a whole palette. -/
def claimedResolvedPalette (plan : DesignPlan) (newColors : Option ColorPalette) : ColorPalette :=
  newColors.getD plan.wallColor

/-- The field-wise resolution the code implements: each field of newColors
falls back to the corresponding wallColor field when it is the empty string
(or when newColors is absent). -/
def fieldwiseResolvedPalette (plan : DesignPlan) (newColors : Option ColorPalette) : ColorPalette :=
  match newColors with
  | none => plan.wallColor
  | some nc =>
    { color := if nc.color = "" then plan.wallColor.color else nc.color,
      accent := if nc.accent = "" then plan.wallColor.accent else nc.accent }

/-! ## Concrete inputs used by witnesses and counterexamples -/

def mockPlan : DesignPlan :=
  { analysis := "A bright room with good natural light.",
    designRationale := "Balanced and harmonious.",
    wallColor := { color := "Soft Off-White", accent := "Charcoal Gray" },
    lighting := "Arched floor lamp and recessed lights",
    flooring := "Light oak hardwood floors",
    furnitureSuggestions :=
      [{ name := "Plush Sectional Sofa", description := "A soft gray sectional.",
         placement := "Against the long wall", estimatedPrice := 1200, modelUrl := none }],
    estimatedCost := { min := 500, max := 2000, currency := "USD" },
    alternativePalettes :=
      [{ color := "Sage Green", accent := "Cream" },
       { color := "Dusty Blue", accent := "White" },
       { color := "Warm Taupe", accent := "Ivory" }] }

def mockAppState : AppState :=
  { designPlan := none, generatedImage := none, error := none,
    isLoading := false, isRegenerating := false, isFetchingPalettes := false,
    feedbackSubmitted := false, uploadedImage := some "IMGB64",
    selectedStyle := "Modern", selectedRoomType := "Living Room" }

/-- A backend response blocked by safety filters: the spec's mock of one
blocked and one unblocked rating. -/
def mockSafetyResponse : GenResponse :=
  { candidates := some
      [{ content := none, finishReason := some "SAFETY",
         safetyRatings := some
           [{ category := "VIOLENCE", blocked := true },
            { category := "SEXUAL", blocked := false }] }] }

/-- A backend response with one candidate holding no content, no finish
reason and no safety ratings. -/
def emptyCandidateResponse : GenResponse :=
  { candidates := some [{ content := none, finishReason := none, safetyRatings := none }] }

/-- A backend response whose first candidate holds a text part and then an
inline-image part. -/
def mockImageResponse : GenResponse :=
  { candidates := some
      [{ content := some
           { parts := some
               [{ text := some "Here is your room", inlineData := none },
                { text := none,
                  inlineData := some { mimeType := some "image/png", data := some "IMGDATA" } }] },
         finishReason := some "STOP", safetyRatings := none }] }

/-! ## Helper lemmas -/

theorem findSome?_eq_some_split {α β : Type} (f : α → Option β) :
    ∀ (l : List α) (b : β), l.findSome? f = some b →
      ∃ l₁ a l₂, l = l₁ ++ a :: l₂ ∧ f a = some b ∧ ∀ x ∈ l₁, f x = none := by
  intro l
  induction l with
  | nil => intro b h; simp [List.findSome?] at h
  | cons a as ih =>
    intro b h
    rw [List.findSome?_cons] at h
    cases hfa : f a with
    | some v =>
      rw [hfa] at h
      exact ⟨[], a, as, by simp, by simp [hfa, ← h], by simp⟩
    | none =>
      rw [hfa] at h
      obtain ⟨l₁, x, l₂, hsplit, hfx, hnone⟩ := ih b h
      refine ⟨a :: l₁, x, l₂, by simp [hsplit], hfx, ?_⟩
      intro y hy
      rcases List.mem_cons.mp hy with rfl | hy'
      · exact hfa
      · exact hnone y hy'

theorem scanImage_eq_findSome (r : GenResponse) :
    r.scanImage = r.partsOrEmpty.findSome? ContentPart.imageData := by
  unfold GenResponse.scanImage GenResponse.partsOrEmpty
  cases hc : r.firstCandidate with
  | none => simp
  | some c =>
    cases hp : c.partsList with
    | none => simp [hp]
    | some ps => simp [hp]

theorem intercalate_four (sep a b c d : String) :
    String.intercalate sep [a, b, c, d] = a ++ sep ++ b ++ sep ++ c ++ sep ++ d := by
  simp [String.intercalate, String.intercalate.go]

/-! ## Claim theorems -/

/-- C2: generateRedesignedImage scans the first candidate's content parts in
order: a successful result carries the inline image data of the first part
holding such data (every earlier part holds none); if some part holds inline
image data the operation succeeds, and if no part does, it fails with the
derived failure message (NoImageError) and returns no result. -/
theorem C2_first_inline_image (r : GenResponse) :
    (∀ d, generateRedesignedImageResponse r = .ok d →
      ∃ l p rest, r.partsOrEmpty = l ++ p :: rest ∧ p.imageData = some d ∧
        ∀ q ∈ l, q.imageData = none) ∧
    ((∃ p ∈ r.partsOrEmpty, (p.imageData).isSome) →
      ∃ d, generateRedesignedImageResponse r = .ok d) ∧
    ((∀ p ∈ r.partsOrEmpty, p.imageData = none) →
      generateRedesignedImageResponse r = .error (noImageErrorMessage r)) := by
  refine ⟨?_, ?_, ?_⟩
  · intro d hd
    unfold generateRedesignedImageResponse at hd
    cases hs : r.scanImage with
    | none => rw [hs] at hd; exact absurd hd (by simp)
    | some v =>
      rw [hs] at hd
      have hv : v = d := by simpa using hd
      subst hv
      rw [scanImage_eq_findSome] at hs
      exact findSome?_eq_some_split ContentPart.imageData _ v hs
  · rintro ⟨p, hp, hsome⟩
    cases hs : r.scanImage with
    | some v => exact ⟨v, by unfold generateRedesignedImageResponse; rw [hs]⟩
    | none =>
      rw [scanImage_eq_findSome, List.findSome?_eq_none_iff] at hs
      rw [hs p hp] at hsome
      simp at hsome
  · intro hall
    have hs : r.scanImage = none := by
      rw [scanImage_eq_findSome, List.findSome?_eq_none_iff]
      exact hall
    unfold generateRedesignedImageResponse
    rw [hs]

/-- C2 witness: on the mock response whose first candidate holds a text part
and then an inline-image part, the operation succeeds with that image data,
found at a position all of whose predecessors hold no image data. -/
theorem C2_witness :
    ∃ l p rest, mockImageResponse.partsOrEmpty = l ++ p :: rest ∧
      p.imageData = some "IMGDATA" ∧ ∀ q ∈ l, q.imageData = none :=
  (C2_first_inline_image mockImageResponse).1 "IMGDATA" (by decide)

/-- C1 (amended): when generateRedesignedImage finds no inline image part,
the failure message is derived in priority order: (1) a SAFETY stop reason
yields a message listing exactly the blocked safety categories; (2) else any
returned text surfaces as the concatenated text; (3) else a truthy stop
reason is reported; (4) else, when the response holds no candidate, the
no-candidates failure is reported; (5) otherwise the generic no-image
failure message (which does not mention candidates) is reported. -/
theorem C1_failure_message_priority (r : GenResponse) :
    (∀ rs, r.firstCandidate.bind Candidate.finishReason = some "SAFETY" →
      r.firstCandidate.bind Candidate.safetyRatings = some rs →
      String.intercalate ", " ((rs.filter fun x => x.blocked).map SafetyRating.category) ≠ "" →
      noImageErrorMessage r =
        "Image generation was blocked by safety filters for the following reasons: " ++
          String.intercalate ", " ((rs.filter fun x => x.blocked).map SafetyRating.category) ++ ".") ∧
    (r.firstCandidate.bind Candidate.finishReason ≠ some "SAFETY" →
      textResponseOf r.firstCandidate ≠ "[No text response]" →
      noImageErrorMessage r =
        "The AI returned a text message instead of an image: \"" ++
          textResponseOf r.firstCandidate ++ "\"") ∧
    (∀ reason, r.firstCandidate.bind Candidate.finishReason = some reason →
      reason ≠ "SAFETY" → reason ≠ "" →
      textResponseOf r.firstCandidate = "[No text response]" →
      noImageErrorMessage r =
        "The AI did not return a redesigned image." ++
          " The process stopped unexpectedly. Reason: " ++ reason ++ ".") ∧
    (r.firstCandidate = none →
      noImageErrorMessage r = "The AI returned no valid candidates in the response.") ∧
    (∀ c, r.firstCandidate = some c →
      strTruthy c.finishReason = false →
      textResponseOf r.firstCandidate = "[No text response]" →
      noImageErrorMessage r = "The AI did not return a redesigned image.") := by
  refine ⟨?_, ?_, ?_, ?_, ?_⟩
  · intro rs h1 h2 h3
    simp only [noImageErrorMessage, h1, h2, if_pos rfl]
    simp [blockedCategoriesText, truthyOr, h3]
  · intro h1 h2
    simp only [noImageErrorMessage]
    rw [if_neg h1, if_pos h2]
  · intro reason h1 h2 h3 h4
    have hne : r.firstCandidate.bind Candidate.finishReason ≠ some "SAFETY" := by
      rw [h1]; simpa using h2
    simp only [noImageErrorMessage]
    rw [if_neg hne, if_neg (by simpa using h4), if_pos (by simp [h1, strTruthy, h3]), h1]
    simp
  · intro h1
    have hfr : r.firstCandidate.bind Candidate.finishReason = none := by simp [h1]
    have htx : textResponseOf r.firstCandidate = "[No text response]" := by
      simp [textResponseOf, h1, truthyOr]
    simp only [noImageErrorMessage]
    rw [if_neg (by simp [hfr]), if_neg (by simpa using htx),
      if_neg (by simp [hfr, strTruthy]), if_pos (by simp [h1])]
  · intro c h1 h2 h3
    have hne : r.firstCandidate.bind Candidate.finishReason ≠ some "SAFETY" := by
      cases hcf : c.finishReason with
      | none => simp [h1, hcf]
      | some v =>
        have : v ≠ "" → False := by
          intro hv
          rw [hcf] at h2
          simp [strTruthy, hv] at h2
        by_cases hv : v = ""
        · subst hv; simp [h1, hcf]
        · exact absurd hv (by intro hx; exact this hx)
    have hftruthy : strTruthy (r.firstCandidate.bind Candidate.finishReason) = false := by
      simp [h1, h2]
    simp only [noImageErrorMessage]
    rw [if_neg hne, if_neg (by simpa using h3), if_neg (by simp [hftruthy]),
      if_neg (by simp [h1])]

/-- C1 counterexample: on a response whose single candidate has no content,
no finish reason and no safety ratings, none of the first three clauses
applies, yet the code reports the generic no-image message, not the
no-candidates failure the claim's final clause announces. -/
theorem C1_counterexample :
    GenResponse.scanImage emptyCandidateResponse = none ∧
    emptyCandidateResponse.firstCandidate.bind Candidate.finishReason = none ∧
    textResponseOf emptyCandidateResponse.firstCandidate = "[No text response]" ∧
    noImageErrorMessage emptyCandidateResponse = "The AI did not return a redesigned image." ∧
    noImageErrorMessage emptyCandidateResponse ≠
      "The AI returned no valid candidates in the response." := by
  decide

/-- C1 witness: the spec's mock safety block (finishReason SAFETY, a blocked
VIOLENCE rating and an unblocked SEXUAL rating) yields the safety message
listing exactly the blocked categories. -/
theorem C1_witness :
    noImageErrorMessage mockSafetyResponse =
      "Image generation was blocked by safety filters for the following reasons: " ++
        String.intercalate ", "
          ((([⟨"VIOLENCE", true⟩, ⟨"SEXUAL", false⟩] : List SafetyRating).filter
            fun x => x.blocked).map SafetyRating.category) ++ "." :=
  (C1_failure_message_priority mockSafetyResponse).1
    [⟨"VIOLENCE", true⟩, ⟨"SEXUAL", false⟩] (by decide) (by decide) (by decide)

/-- C3: in the primary flow, when the plan call succeeds and the image call
fails, the final state keeps the plan and sets the non-fatal degraded-image
message (distinct from the fatal message); when the plan call fails, the
final state holds no plan and sets the fatal-for-this-attempt message,
whatever the image outcome. -/
theorem C3_partial_success_preservation (s : AppState) (plan : DesignPlan)
    (e1 e2 : String) (imageCall : CallResult String)
    (himg : strTruthy s.uploadedImage = true) (hstyle : s.selectedStyle ≠ "")
    (hroom : s.selectedRoomType ≠ "") :
    ((handleGenerateClick s (.ok plan) (.failed e2)).designPlan = some plan ∧
     (handleGenerateClick s (.ok plan) (.failed e2)).error = some degradedImageMessage ∧
     degradedImageMessage ≠ failedPlanMessage) ∧
    ((handleGenerateClick s (.failed e1) imageCall).designPlan = none ∧
     (handleGenerateClick s (.failed e1) imageCall).error = some failedPlanMessage) := by
  have hguard : ¬ (strTruthy s.uploadedImage = false ∨ s.selectedStyle = "" ∨
      s.selectedRoomType = "") := by
    simp [himg, hstyle, hroom]
  refine ⟨⟨?_, ?_, by decide⟩, ?_, ?_⟩ <;>
    simp [handleGenerateClick, hguard]

/-- C3 witness: on the mock ready-to-generate state, a successful plan call
followed by a failed image call keeps the plan in the final state. -/
theorem C3_witness :
    (handleGenerateClick mockAppState (.ok mockPlan) (.failed "image backend down")).designPlan =
      some mockPlan :=
  ((C3_partial_success_preservation mockAppState mockPlan "unused" "image backend down"
    (.failed "unused") (by decide) (by decide) (by decide)).1).1

/-- C4 counterexample: with newColors provided but carrying an empty color
field, the prompt's effective primary color is the plan's wall color, not
the empty string the claimed whole-palette resolution (newColors ??
plan.wallColor) would give. -/
theorem C4_counterexample :
    resolvedPrimaryColor mockPlan (some { color := "", accent := "Crimson Red" }) =
      "Soft Off-White" ∧
    (claimedResolvedPalette mockPlan (some { color := "", accent := "Crimson Red" })).color = "" ∧
    resolvedPrimaryColor mockPlan (some { color := "", accent := "Crimson Red" }) ≠
      (claimedResolvedPalette mockPlan (some { color := "", accent := "Crimson Red" })).color ∧
    buildImagePrompt mockPlan "Modern" "Bedroom" (some { color := "", accent := "Crimson Red" }) =
      buildImagePrompt mockPlan "Modern" "Bedroom"
        (some { color := "Soft Off-White", accent := "Crimson Red" }) := by
  refine ⟨by decide, by decide, by decide, ?_⟩
  rfl

/-- C4 (amended): the image prompt resolves the effective palette field-wise:
each field of newColors falls back to the corresponding plan.wallColor field
when newColors is absent or that field is the empty string; the prompt built
with newColors equals the prompt built with the so-resolved palette installed
as the plan's wall color and no newColors. -/
theorem C4_fieldwise_color_resolution (plan : DesignPlan) (style roomType : String)
    (newColors : Option ColorPalette) :
    resolvedPrimaryColor plan newColors = (fieldwiseResolvedPalette plan newColors).color ∧
    resolvedAccentColor plan newColors = (fieldwiseResolvedPalette plan newColors).accent ∧
    buildImagePrompt plan style roomType newColors =
      buildImagePrompt { plan with wallColor := fieldwiseResolvedPalette plan newColors }
        style roomType none := by
  have hp : resolvedPrimaryColor plan newColors =
      (fieldwiseResolvedPalette plan newColors).color := by
    cases newColors with
    | none => rfl
    | some nc => rfl
  have ha : resolvedAccentColor plan newColors =
      (fieldwiseResolvedPalette plan newColors).accent := by
    cases newColors with
    | none => rfl
    | some nc => rfl
  refine ⟨hp, ha, ?_⟩
  have hpn : resolvedPrimaryColor
      { plan with wallColor := fieldwiseResolvedPalette plan newColors } none =
      (fieldwiseResolvedPalette plan newColors).color := rfl
  have han : resolvedAccentColor
      { plan with wallColor := fieldwiseResolvedPalette plan newColors } none =
      (fieldwiseResolvedPalette plan newColors).accent := rfl
  unfold buildImagePrompt
  by_cases hext : isExteriorRoomType roomType
  · rw [if_pos hext, if_pos hext]
    unfold exteriorImagePrompt
    rw [hp, ha, hpn, han]
    rfl
  · rw [if_neg hext, if_neg hext]
    unfold interiorImagePrompt
    rw [hp, hpn]
    rfl

/-- C5: when both width and length are present (non-empty), the plan prompt
contains the dimension clause referencing both values and the unit name
(feet for ft, meters otherwise); when either is absent, the prompt equals
the prompt built with no dimensions at all, so no partial clause appears. -/
theorem C5_dimension_clause_inclusion (roomType style : String)
    (dims : Option RoomDimensions) :
    (∀ d, dims = some d → d.width ≠ "" → d.length ≠ "" →
      ∃ a b, buildPlanPrompt roomType style dims =
        a ++ (" The user has specified the room is approximately " ++ d.width ++ " " ++
          (if d.unit = "ft" then "feet" else "meters") ++ " wide by " ++ d.length ++ " " ++
          (if d.unit = "ft" then "feet" else "meters") ++ " long.") ++ b) ∧
    ((∀ d, dims = some d → (d.width = "" ∨ d.length = "")) →
      buildPlanPrompt roomType style dims = buildPlanPrompt roomType style none) := by
  constructor
  · rintro d rfl hw hl
    refine ⟨planPromptHead roomType style,
      " Please ensure your furniture suggestions and layout advice are appropriately scaled for a room of this size and explicitly mention this in your analysis." ++
        planPromptTail style, ?_⟩
    simp only [buildPlanPrompt, dimensionText, if_pos (And.intro hw hl), dimensionClause,
      unitNameOf]
    simp only [String.append_assoc]
  · intro h
    cases dims with
    | none => rfl
    | some d =>
      rcases h d rfl with hw | hl
      · simp [buildPlanPrompt, dimensionText, hw]
      · simp [buildPlanPrompt, dimensionText, hl]

/-- C5 witness: a 12 ft by 10 ft room yields a prompt containing the feet
dimension clause; a dimensions value with an empty width yields exactly the
dimension-free prompt. -/
theorem C5_witness :
    (∃ a b, buildPlanPrompt "Bedroom" "Modern" (some ⟨"12", "10", "ft"⟩) =
      a ++ (" The user has specified the room is approximately " ++ "12" ++ " " ++
        (if ("ft" : String) = "ft" then "feet" else "meters") ++ " wide by " ++ "10" ++ " " ++
        (if ("ft" : String) = "ft" then "feet" else "meters") ++ " long.") ++ b) ∧
    buildPlanPrompt "Bedroom" "Modern" (some ⟨"", "10", "m"⟩) =
      buildPlanPrompt "Bedroom" "Modern" none :=
  ⟨(C5_dimension_clause_inclusion "Bedroom" "Modern" (some ⟨"12", "10", "ft"⟩)).1
      ⟨"12", "10", "ft"⟩ rfl (by decide) (by decide),
   (C5_dimension_clause_inclusion "Bedroom" "Modern" (some ⟨"", "10", "m"⟩)).2
      (fun d hd => by cases hd; left; rfl)⟩

/-- C6: triggering the recolor flow publishes the plan with the new wall
color before the image call resolves; after a failed image call the plan
still holds the new wall color (never the prior one unless equal), and every
other plan field is unchanged. -/
theorem C6_recolor_not_rolled_back (s : AppState) (plan : DesignPlan)
    (pnew : ColorPalette) (e : String)
    (hplan : s.designPlan = some plan) (himg : strTruthy s.uploadedImage = true) :
    (recolorOptimistic s plan pnew).designPlan = some { plan with wallColor := pnew } ∧
    (∃ plan2, (handleColorChange s pnew (.failed e)).designPlan = some plan2 ∧
      plan2.wallColor = pnew ∧
      plan2.analysis = plan.analysis ∧
      plan2.designRationale = plan.designRationale ∧
      plan2.lighting = plan.lighting ∧
      plan2.flooring = plan.flooring ∧
      plan2.furnitureSuggestions = plan.furnitureSuggestions ∧
      plan2.estimatedCost = plan.estimatedCost ∧
      plan2.alternativePalettes = plan.alternativePalettes) := by
  refine ⟨rfl, { plan with wallColor := pnew }, ?_, rfl, rfl, rfl, rfl, rfl, rfl, rfl, rfl⟩
  simp [handleColorChange, hplan, himg, recolorOptimistic]

/-- C6 witness: recoloring the mock plan to a new palette and failing the
image call leaves the new wall color in place with all other fields intact. -/
theorem C6_witness :
    ∃ plan2, (handleColorChange { mockAppState with designPlan := some mockPlan }
        { color := "Forest Green", accent := "Brass" } (.failed "busy")).designPlan =
      some plan2 ∧
      plan2.wallColor = { color := "Forest Green", accent := "Brass" } ∧
      plan2.analysis = mockPlan.analysis ∧
      plan2.designRationale = mockPlan.designRationale ∧
      plan2.lighting = mockPlan.lighting ∧
      plan2.flooring = mockPlan.flooring ∧
      plan2.furnitureSuggestions = mockPlan.furnitureSuggestions ∧
      plan2.estimatedCost = mockPlan.estimatedCost ∧
      plan2.alternativePalettes = mockPlan.alternativePalettes :=
  (C6_recolor_not_rolled_back { mockAppState with designPlan := some mockPlan } mockPlan
    { color := "Forest Green", accent := "Brass" } "busy" rfl (by decide)).2

/-- C7: the more-palettes merge appends, after the unchanged existing
alternativePalettes, exactly the returned palettes that do not structurally
duplicate an existing one, in response order; every appended palette is new,
and when every returned palette duplicates an existing one the list is
left unchanged. -/
theorem C7_merge_dedup (prevPlan : DesignPlan) (newPalettes : List ColorPalette) :
    ((mergeMorePalettes prevPlan newPalettes).alternativePalettes =
      prevPlan.alternativePalettes ++
        newPalettes.filter fun p => !decide (p ∈ prevPlan.alternativePalettes)) ∧
    (∃ appended, (mergeMorePalettes prevPlan newPalettes).alternativePalettes =
      prevPlan.alternativePalettes ++ appended ∧
      ∀ p ∈ appended, p ∉ prevPlan.alternativePalettes) ∧
    ((∀ p ∈ newPalettes, p ∈ prevPlan.alternativePalettes) →
      (mergeMorePalettes prevPlan newPalettes).alternativePalettes =
        prevPlan.alternativePalettes) := by
  refine ⟨rfl, ⟨_, rfl, ?_⟩, ?_⟩
  · intro p hp
    have := (List.mem_filter.mp hp).2
    simpa using this
  · intro hall
    have hnil : (newPalettes.filter fun p => !decide (p ∈ prevPlan.alternativePalettes)) = [] := by
      rw [List.filter_eq_nil_iff]
      intro p hp
      simpa using hall p hp
    show prevPlan.alternativePalettes ++ _ = prevPlan.alternativePalettes
    rw [hnil, List.append_nil]

/-- C7 witness: merging a result whose palettes all duplicate existing
alternatives of the mock plan leaves the list unchanged. -/
theorem C7_witness :
    (mergeMorePalettes mockPlan
        [{ color := "Dusty Blue", accent := "White" },
         { color := "Sage Green", accent := "Cream" }]).alternativePalettes =
      mockPlan.alternativePalettes :=
  (C7_merge_dedup mockPlan
    [{ color := "Dusty Blue", accent := "White" },
     { color := "Sage Green", accent := "Cream" }]).2.2 (by decide)

/-- C8: for a plan whose alternativePalettes are exactly three palettes, the
more-palettes prompt contains, for the current wall color and each of the
three alternatives, the already-seen line rendering that palette's color and
accent. -/
theorem C8_prompt_lists_all_palettes (plan : DesignPlan) (style : String)
    (p1 p2 p3 : ColorPalette) (h : plan.alternativePalettes = [p1, p2, p3]) :
    ∀ p ∈ [plan.wallColor, p1, p2, p3], ∃ a b,
      buildMorePalettesPrompt plan style = a ++ ("- " ++ p.color ++ " & " ++ p.accent) ++ b := by
  have hrw : buildMorePalettesPrompt plan style =
      "You are an AI color consultant for an interior design app. Based on the following design analysis for a \"" ++ style ++
        "\" themed room, please generate exactly 3 new and distinct color palettes. **Design Analysis:** " ++ plan.analysis ++
        " **Important:** The user has already seen the following palettes, so please provide completely different options that suggest different moods (e.g., one calming, one energetic, one sophisticated): " ++
        (renderPaletteLine plan.wallColor ++ "\n" ++ renderPaletteLine p1 ++ "\n" ++
          renderPaletteLine p2 ++ "\n" ++ renderPaletteLine p3) ++
        " Return the output as a JSON array of objects, where each object has a 'color' and 'accent' property, according to the provided schema." := by
    unfold buildMorePalettesPrompt existingPalettesText
    rw [h]
    simp only [List.map_cons, List.map_nil]
    rw [intercalate_four]
  intro p hp
  simp only [List.mem_cons, List.not_mem_nil, or_false] at hp
  rcases hp with rfl | rfl | rfl | rfl
  · refine ⟨"You are an AI color consultant for an interior design app. Based on the following design analysis for a \"" ++ style ++
      "\" themed room, please generate exactly 3 new and distinct color palettes. **Design Analysis:** " ++ plan.analysis ++
      " **Important:** The user has already seen the following palettes, so please provide completely different options that suggest different moods (e.g., one calming, one energetic, one sophisticated): ",
      "\n" ++ renderPaletteLine p1 ++ "\n" ++ renderPaletteLine p2 ++ "\n" ++
        renderPaletteLine p3 ++
        " Return the output as a JSON array of objects, where each object has a 'color' and 'accent' property, according to the provided schema.", ?_⟩
    rw [hrw]
    unfold renderPaletteLine
    simp only [String.append_assoc]
  · refine ⟨"You are an AI color consultant for an interior design app. Based on the following design analysis for a \"" ++ style ++
      "\" themed room, please generate exactly 3 new and distinct color palettes. **Design Analysis:** " ++ plan.analysis ++
      " **Important:** The user has already seen the following palettes, so please provide completely different options that suggest different moods (e.g., one calming, one energetic, one sophisticated): " ++
        (renderPaletteLine plan.wallColor ++ "\n"),
      "\n" ++ renderPaletteLine p2 ++ "\n" ++ renderPaletteLine p3 ++
        " Return the output as a JSON array of objects, where each object has a 'color' and 'accent' property, according to the provided schema.", ?_⟩
    rw [hrw]
    unfold renderPaletteLine
    simp only [String.append_assoc]
  · refine ⟨"You are an AI color consultant for an interior design app. Based on the following design analysis for a \"" ++ style ++
      "\" themed room, please generate exactly 3 new and distinct color palettes. **Design Analysis:** " ++ plan.analysis ++
      " **Important:** The user has already seen the following palettes, so please provide completely different options that suggest different moods (e.g., one calming, one energetic, one sophisticated): " ++
        (renderPaletteLine plan.wallColor ++ "\n" ++ renderPaletteLine p1 ++ "\n"),
      "\n" ++ renderPaletteLine p3 ++
        " Return the output as a JSON array of objects, where each object has a 'color' and 'accent' property, according to the provided schema.", ?_⟩
    rw [hrw]
    unfold renderPaletteLine
    simp only [String.append_assoc]
  · refine ⟨"You are an AI color consultant for an interior design app. Based on the following design analysis for a \"" ++ style ++
      "\" themed room, please generate exactly 3 new and distinct color palettes. **Design Analysis:** " ++ plan.analysis ++
      " **Important:** The user has already seen the following palettes, so please provide completely different options that suggest different moods (e.g., one calming, one energetic, one sophisticated): " ++
        (renderPaletteLine plan.wallColor ++ "\n" ++ renderPaletteLine p1 ++ "\n" ++
          renderPaletteLine p2 ++ "\n"),
      " Return the output as a JSON array of objects, where each object has a 'color' and 'accent' property, according to the provided schema.", ?_⟩
    rw [hrw]
    unfold renderPaletteLine
    simp only [String.append_assoc]

/-- C8 witness: for the mock plan (wall color plus its three alternatives),
the prompt contains the already-seen line for the second alternative. -/
theorem C8_witness :
    ∃ a b, buildMorePalettesPrompt mockPlan "Modern" =
      a ++ ("- " ++ ("Dusty Blue" : String) ++ " & " ++ ("White" : String)) ++ b :=
  C8_prompt_lists_all_palettes mockPlan "Modern"
    { color := "Sage Green", accent := "Cream" }
    { color := "Dusty Blue", accent := "White" }
    { color := "Warm Taupe", accent := "Ivory" } rfl
    { color := "Dusty Blue", accent := "White" } (by simp)

/-- C9: the image prompt builder picks the exterior template exactly when
roomType equals the sentinel Exterior case-insensitively and the interior
template otherwise, and in either case the prompt ends with the instruction
demanding only the final image and no surrounding text. -/
theorem C9_template_selection (plan : DesignPlan) (style roomType : String)
    (newColors : Option ColorPalette) :
    (strToLower roomType = strToLower "Exterior" →
      buildImagePrompt plan style roomType newColors =
        exteriorImagePrompt plan style newColors) ∧
    (strToLower roomType ≠ strToLower "Exterior" →
      buildImagePrompt plan style roomType newColors =
        interiorImagePrompt plan style roomType newColors) ∧
    (∃ a mid, buildImagePrompt plan style roomType newColors =
        a ++ ("Output: Return ONLY the final, " ++ mid ++
          " image without any surrounding text or explanation.") ∧
      (mid = "edited" ∨ mid = "redesigned")) := by
  have hlow : strToLower "Exterior" = "exterior" := by decide
  rw [hlow]
  refine ⟨?_, ?_, ?_⟩
  · intro h
    unfold buildImagePrompt isExteriorRoomType
    rw [if_pos (by simp [h])]
  · intro h
    unfold buildImagePrompt isExteriorRoomType
    rw [if_neg (by simpa using h)]
  · unfold buildImagePrompt
    by_cases hext : isExteriorRoomType roomType
    · refine ⟨"Task: Redesign this building exterior in a photorealistic \"" ++ style ++
        "\" style.\nInstructions:\n1. Change the main color to \"" ++
        resolvedPrimaryColor plan newColors ++ "\" with \"" ++
        resolvedAccentColor plan newColors ++
        "\" accents.\n2. Update landscaping and add outdoor items: " ++ furnitureListOf plan ++
        ".\n3. The lighting should be \"" ++ plan.lighting ++
        "\".\n4. IMPORTANT: Do not alter the building's core structure (walls, windows, roof).\n",
        "edited", ?_, Or.inl rfl⟩
      rw [if_pos hext]
      unfold exteriorImagePrompt
      simp only [String.append_assoc]
    · refine ⟨"Task: Redesign the interior of this " ++ roomType ++
        " photorealistically in the \"" ++ style ++
        "\" style.\nInstructions:\n1. Remove ALL existing furniture, decor, and items from the room.\n2. Change the wall color to \"" ++
        resolvedPrimaryColor plan newColors ++ "\".\n3. Change the floor to \"" ++
        plan.flooring ++
        "\".\n4. Add the following new furniture, arranged in a natural and functional layout: " ++
        furnitureListOf plan ++ ".\n5. Adjust the lighting to be like \"" ++ plan.lighting ++
        "\".\n6. IMPORTANT: Do not alter the room's core structure (windows, doors, architectural features).\n",
        "redesigned", ?_, Or.inr rfl⟩
      rw [if_neg hext]
      unfold interiorImagePrompt
      simp only [String.append_assoc]

/-- C9 witness: the all-caps EXTERIOR room type selects the exterior
template; the Living Room room type selects the interior template. -/
theorem C9_witness :
    buildImagePrompt mockPlan "Modern" "EXTERIOR" none =
      exteriorImagePrompt mockPlan "Modern" none ∧
    buildImagePrompt mockPlan "Modern" "Living Room" none =
      interiorImagePrompt mockPlan "Modern" "Living Room" none :=
  ⟨(C9_template_selection mockPlan "Modern" "EXTERIOR" none).1 (by decide),
   (C9_template_selection mockPlan "Modern" "Living Room" none).2.1 (by decide)⟩

/-- C10: on a 200 response, the client-side generateRedesignedImage wrapper
fails with the missing-image-data message whenever the imageBytes field is
absent or empty, and returns a string exactly when the field holds that
non-empty string. -/
theorem C10_client_rejects_missing_image (r : HttpResponse) (h200 : r.status = 200) :
    ((r.body.imageBytes = none ∨ r.body.imageBytes = some "") →
      clientGenerateRedesignedImage r =
        .failed "API response did not include image data.") ∧
    (∀ s, clientGenerateRedesignedImage r = .ok s ↔
      (r.body.imageBytes = some s ∧ s ≠ "")) := by
  have hok : httpOk r.status = true := by rw [h200]; rfl
  constructor
  · intro h
    rcases h with h | h <;>
      simp [clientGenerateRedesignedImage, callApiImage, hok, h, strTruthy]
  · intro s
    constructor
    · intro h
      cases hib : r.body.imageBytes with
      | none =>
        simp [clientGenerateRedesignedImage, callApiImage, hok, hib, strTruthy] at h
      | some v =>
        by_cases hv : v = ""
        · subst hv
          simp [clientGenerateRedesignedImage, callApiImage, hok, hib, strTruthy] at h
        · have : v = s := by
            simpa [clientGenerateRedesignedImage, callApiImage, hok, hib, strTruthy, hv] using h
          subst this
          exact ⟨rfl, hv⟩
    · rintro ⟨hib, hs⟩
      simp [clientGenerateRedesignedImage, callApiImage, hok, hib, strTruthy, hs]

/-- C10 witness: a 200 response whose body carries an empty imageBytes field
surfaces to the orchestrator as a failure; one carrying data succeeds. -/
theorem C10_witness :
    clientGenerateRedesignedImage
        { status := 200, body := { imageBytes := some "", error := none } } =
      .failed "API response did not include image data." ∧
    clientGenerateRedesignedImage
        { status := 200, body := { imageBytes := some "IMGDATA", error := none } } =
      .ok "IMGDATA" :=
  ⟨(C10_client_rejects_missing_image
      { status := 200, body := { imageBytes := some "", error := none } } rfl).1 (Or.inr rfl),
   ((C10_client_rejects_missing_image
      { status := 200, body := { imageBytes := some "IMGDATA", error := none } } rfl).2
      "IMGDATA").mpr ⟨rfl, by decide⟩⟩
